import Mathlib

/-!
Verification of the mlpack `AlphaDropout` layer
(`src/mlpack/methods/ann/layer/alpha_dropout.hpp`).

The scalar state of the layer is modelled over the exact reals `ℝ` (the
C++ code computes with `double`); tensors are modelled as functions from
an opaque index type `ι` to `ℝ`, matching the shape-opaque, elementwise
contract of the layer.  `pow(x, -0.5)` is modelled by `Real.rpow`.

The header declares the full state, the accessors and the `Ratio`
mutator with their bodies; those are embedded directly from the source.
The bodies of the constructor, of `Forward`, of `Backward` and of
`serialize` live in `alpha_dropout_impl.hpp`, which is not among the
sources; these are modelled from the specification (each such definition
says so in its doc comment).
-/

noncomputable section

namespace mlpack

/-- Value of alpha for normalized inputs (taken from SELU), the
`static constexpr double alpha` member of the source class. -/
def alpha : ℝ := 1.6732632423543772848170429916717

/-- Value of lambda for normalized inputs (taken from SELU), the
`static constexpr double lambda` member of the source class. -/
def lambda : ℝ := 1.0507009873554804934193349852946

/-- The state of an `AlphaDropout` layer: the private data members of the
source class.  Tensor-valued members (`delta`, `inputParameter`,
`outputParameter`, `mask`) are functions from the opaque index type `ι`
to `ℝ`. -/
structure AlphaDropout (ι : Type) where
  delta : ι → ℝ
  inputParameter : ι → ℝ
  outputParameter : ι → ℝ
  mask : ι → ℝ
  ratio : ℝ
  alphaDash : ℝ
  deterministic : Bool
  a : ℝ
  b : ℝ

/-- The `Ratio(const double r)` mutator from the header:
sets `ratio = r`, then
`a = pow((1 - ratio) * (1 + ratio * pow(alphaDash, 2)), -0.5)` and
`b = -a * alphaDash * ratio`.  The source performs no validation of `r`. -/
def AlphaDropout.Ratio {ι : Type} (st : AlphaDropout ι) (r : ℝ) :
    AlphaDropout ι :=
  let a := Real.rpow ((1 - r) * (1 + r * st.alphaDash ^ 2)) (-0.5)
  let b := -a * st.alphaDash * r
  { st with ratio := r, a := a, b := b }

/-- Modelled from the spec: the constructor body is in
`alpha_dropout_impl.hpp`, which is not among the sources.  Per §4.1 of
the spec, construction with `(ratio, alphaDash)` stores both values and
"must run the same derivation at construction time so the invariant
holds immediately"; scratch buffers start empty (all zero) and the layer
starts in training mode (`deterministic = false`), which is toggled
externally. -/
def mkAlphaDropout (ι : Type) (ratio alphaDash : ℝ) : AlphaDropout ι :=
  AlphaDropout.Ratio
    { delta := fun _ => 0
      inputParameter := fun _ => 0
      outputParameter := fun _ => 0
      mask := fun _ => 0
      ratio := ratio
      alphaDash := alphaDash
      deterministic := false
      a := 0
      b := 0 } ratio

/-- A layer constructed with the default arguments declared in the
header: `ratio = 0.5`, `alphaDash = -alpha * lambda`. -/
def defaultAlphaDropout (ι : Type) : AlphaDropout ι :=
  mkAlphaDropout ι 0.5 (-(alpha * lambda))

/-- Modelled from the spec: the `Forward` body is in
`alpha_dropout_impl.hpp`, which is not among the sources.  Per §4.2 of
the spec: in deterministic mode the output is the input element for
element with no masking and no affine transform; otherwise each element
is kept with probability `1 - ratio` (realised here from the injected
uniform draws `u`, each in `[0, 1)`: the element is kept iff
`ratio ≤ u i`), a kept element contributes `x` and a dropped one
`alphaDash`, the output element is `a * intermediate + b`, and the
fresh mask together with the input and output scratch is stored into the
state.  Returns the output tensor and the updated state. -/
def AlphaDropout.Forward {ι : Type} (st : AlphaDropout ι)
    (input u : ι → ℝ) : (ι → ℝ) × AlphaDropout ι :=
  if st.deterministic then
    (input, { st with inputParameter := input, outputParameter := input })
  else
    let mask : ι → ℝ := fun i => if st.ratio ≤ u i then 1 else 0
    let output : ι → ℝ := fun i =>
      st.a * (if st.ratio ≤ u i then input i else st.alphaDash) + st.b
    (output,
      { st with mask := mask, inputParameter := input,
                outputParameter := output })

/-- Modelled from the spec: the `Backward` body is in
`alpha_dropout_impl.hpp`, which is not among the sources.  Per §4.3 of
the spec: elementwise `g = a * mask .* gy`; in deterministic mode, by
convention, `g = gy` (identity gradient, matching the identity forward
pass). -/
def AlphaDropout.Backward {ι : Type} (st : AlphaDropout ι)
    (gy : ι → ℝ) : ι → ℝ :=
  if st.deterministic then gy
  else fun i => st.a * st.mask i * gy i

/-- The configuration subset of `AlphaDropout` that is persisted, per
§4.4 of the spec: exactly `{ratio, alphaDash, a, b, deterministic}`. -/
structure PersistedState where
  ratio : ℝ
  alphaDash : ℝ
  a : ℝ
  b : ℝ
  deterministic : Bool

/-- Modelled from the spec: the `serialize` body is in
`alpha_dropout_impl.hpp`, which is not among the sources.  Per §4.4 of
the spec, saving persists exactly `{ratio, alphaDash, a, b,
deterministic}`; the scratch buffers are not part of the persisted
state. -/
def AlphaDropout.serialize {ι : Type} (st : AlphaDropout ι) :
    PersistedState :=
  { ratio := st.ratio, alphaDash := st.alphaDash, a := st.a, b := st.b,
    deterministic := st.deterministic }

/-- Modelled from the spec: restoring a `PersistedState` into a fresh
instance stores the five persisted fields; the scratch buffers `mask`,
`input`, `output`, `delta` are "considered empty/undefined until the
next Forward/Backward call" (§4.4), modelled as all-zero. -/
def deserialize (ι : Type) (p : PersistedState) : AlphaDropout ι :=
  { delta := fun _ => 0
    inputParameter := fun _ => 0
    outputParameter := fun _ => 0
    mask := fun _ => 0
    ratio := p.ratio
    alphaDash := p.alphaDash
    deterministic := p.deterministic
    a := p.a
    b := p.b }

/-- A layer in inference mode: a default-constructed layer after the
external training/inference switch set `deterministic` to `true`. -/
def detLayer : AlphaDropout Unit :=
  { defaultAlphaDropout Unit with deterministic := true }

end mlpack

namespace mlpack.AlphaDropout

/-- Unfolding lemma: the affine scale computed by the `Ratio` mutator. -/
theorem Ratio_a {ι : Type} (st : AlphaDropout ι) (r : ℝ) :
    (st.Ratio r).a
      = Real.rpow ((1 - r) * (1 + r * st.alphaDash ^ 2)) (-0.5) := rfl

/-- Unfolding lemma: the affine shift computed by the `Ratio` mutator. -/
theorem Ratio_b {ι : Type} (st : AlphaDropout ι) (r : ℝ) :
    (st.Ratio r).b = -(st.Ratio r).a * st.alphaDash * r := rfl

/-- Unfolding lemma: the output of `Forward` in deterministic mode is
the input, and the mask is untouched. -/
theorem Forward_det {ι : Type} (st : AlphaDropout ι) (input u : ι → ℝ)
    (h : st.deterministic = true) :
    (st.Forward input u).1 = input ∧
    (st.Forward input u).2.mask = st.mask := by
  constructor <;> simp [Forward, h]

/-- Unfolding lemma: the output of `Forward` in training mode,
elementwise, and the stored mask. -/
theorem Forward_train {ι : Type} (st : AlphaDropout ι) (input u : ι → ℝ)
    (h : st.deterministic = false) :
    (st.Forward input u).1
      = (fun i =>
          st.a * (if st.ratio ≤ u i then input i else st.alphaDash)
            + st.b) ∧
    (st.Forward input u).2.mask
      = (fun i => if st.ratio ≤ u i then 1 else 0) := by
  constructor <;> simp [Forward, h]

end mlpack.AlphaDropout

/-- C1: for every ratio `r ∈ [0, 1)` and fixed `alphaDash`, after the
ratio mutator `Ratio(r)` — and equally right after constructing a layer
with `(ratio, alphaDash)` — the affine constants satisfy
`a = ((1 - r) * (1 + r * alphaDash^2))^(-0.5)` and
`b = -a * alphaDash * r`. -/
theorem ratio_mutator_affine_invariant {ι : Type}
    (st : mlpack.AlphaDropout ι) (r α : ℝ) (h : 0 ≤ r ∧ r < 1) :
    ((st.Ratio r).a
        = Real.rpow ((1 - r) * (1 + r * st.alphaDash ^ 2)) (-0.5) ∧
      (st.Ratio r).b = -(st.Ratio r).a * st.alphaDash * r) ∧
    ((mlpack.mkAlphaDropout ι r α).a
        = Real.rpow ((1 - r) * (1 + r * α ^ 2)) (-0.5) ∧
      (mlpack.mkAlphaDropout ι r α).b
        = -(mlpack.mkAlphaDropout ι r α).a * α * r) :=
  ⟨⟨rfl, rfl⟩, rfl, rfl⟩

/-- Witness for C1 at `r = 0.5`, `alphaDash = 2` and a concrete state. -/
theorem ratio_mutator_affine_invariant_witness :
    (0 ≤ (0.5 : ℝ) ∧ (0.5 : ℝ) < 1) ∧
    ((((mlpack.defaultAlphaDropout Unit).Ratio 0.5).a
        = Real.rpow
            ((1 - 0.5)
              * (1 + 0.5 * (mlpack.defaultAlphaDropout Unit).alphaDash ^ 2))
            (-0.5) ∧
      ((mlpack.defaultAlphaDropout Unit).Ratio 0.5).b
        = -((mlpack.defaultAlphaDropout Unit).Ratio 0.5).a
            * (mlpack.defaultAlphaDropout Unit).alphaDash * 0.5) ∧
     ((mlpack.mkAlphaDropout Unit 0.5 2).a
        = Real.rpow ((1 - 0.5) * (1 + 0.5 * (2 : ℝ) ^ 2)) (-0.5) ∧
      (mlpack.mkAlphaDropout Unit 0.5 2).b
        = -(mlpack.mkAlphaDropout Unit 0.5 2).a * 2 * 0.5)) :=
  ⟨⟨by norm_num, by norm_num⟩,
    ratio_mutator_affine_invariant (mlpack.defaultAlphaDropout Unit) 0.5 2
      ⟨by norm_num, by norm_num⟩⟩

/-- C2: the source mutator performs no validation.  At the failing input
`r = 2` (outside `[0, 1)`) it silently accepts the value — it sets
`ratio = 2` and returns a changed state instead of failing with an
`InvalidArgument` condition as the claim demands. -/
theorem ratio_mutator_accepts_out_of_range :
    ((mlpack.defaultAlphaDropout Unit).Ratio 2).ratio = 2 ∧
    (mlpack.defaultAlphaDropout Unit).Ratio 2
      ≠ mlpack.defaultAlphaDropout Unit := by
  refine ⟨rfl, fun hEq => ?_⟩
  have h2 : ((mlpack.defaultAlphaDropout Unit).Ratio 2).ratio
      = (mlpack.defaultAlphaDropout Unit).ratio :=
    congrArg mlpack.AlphaDropout.ratio hEq
  rw [show ((mlpack.defaultAlphaDropout Unit).Ratio 2).ratio = 2 from rfl,
      show (mlpack.defaultAlphaDropout Unit).ratio = 0.5 from rfl] at h2
  norm_num at h2

/-- C9: for every `r`, the ratio mutator modifies only `ratio`, `a` and
`b`; the fields `alphaDash`, `deterministic`, `mask`, `inputParameter`,
`outputParameter` and `delta` are left unchanged. -/
theorem ratio_mutator_frame {ι : Type} (st : mlpack.AlphaDropout ι)
    (r : ℝ) :
    (st.Ratio r).ratio = r ∧
    (st.Ratio r).alphaDash = st.alphaDash ∧
    (st.Ratio r).deterministic = st.deterministic ∧
    (st.Ratio r).mask = st.mask ∧
    (st.Ratio r).inputParameter = st.inputParameter ∧
    (st.Ratio r).outputParameter = st.outputParameter ∧
    (st.Ratio r).delta = st.delta :=
  ⟨rfl, rfl, rfl, rfl, rfl, rfl, rfl⟩

/-- C10: for every `r ∈ [0, 1)` and every `alphaDash`, the base of the
power expression in the mutator, `(1 - r) * (1 + r * alphaDash^2)`, is
strictly positive, and the computed `a` is a well-defined strictly
positive real (in this exact-real model every value is finite; the
content of the claim is the strict positivity of base and scale). -/
theorem ratio_mutator_base_pos {ι : Type} (st : mlpack.AlphaDropout ι)
    (r : ℝ) (h : 0 ≤ r ∧ r < 1) :
    0 < (1 - r) * (1 + r * st.alphaDash ^ 2) ∧ 0 < (st.Ratio r).a := by
  have h1 : 0 < 1 - r := by linarith [h.2]
  have h2 : 0 < 1 + r * st.alphaDash ^ 2 := by
    have hr := mul_nonneg h.1 (sq_nonneg st.alphaDash)
    linarith
  have hbase : 0 < (1 - r) * (1 + r * st.alphaDash ^ 2) := mul_pos h1 h2
  exact ⟨hbase, Real.rpow_pos_of_pos hbase _⟩

/-- Witness for C10 at `r = 0.5` and the default layer. -/
theorem ratio_mutator_base_pos_witness :
    (0 ≤ (0.5 : ℝ) ∧ (0.5 : ℝ) < 1) ∧
    (0 < (1 - (0.5 : ℝ))
          * (1 + 0.5 * (mlpack.defaultAlphaDropout Unit).alphaDash ^ 2) ∧
     0 < ((mlpack.defaultAlphaDropout Unit).Ratio 0.5).a) :=
  ⟨⟨by norm_num, by norm_num⟩,
    ratio_mutator_base_pos (mlpack.defaultAlphaDropout Unit) 0.5
      ⟨by norm_num, by norm_num⟩⟩

/-- C3: for every input tensor and every ratio, if `deterministic` is
`true` then `Forward` returns the input element for element, with no
masking applied (the mask is untouched). -/
theorem forward_deterministic_identity {ι : Type}
    (st : mlpack.AlphaDropout ι) (input u : ι → ℝ)
    (h : st.deterministic = true) :
    (st.Forward input u).1 = input ∧
    (st.Forward input u).2.mask = st.mask :=
  mlpack.AlphaDropout.Forward_det st input u h

/-- Witness for C3 on a concrete inference-mode layer and input. -/
theorem forward_deterministic_identity_witness :
    mlpack.detLayer.deterministic = true ∧
    ((mlpack.detLayer.Forward (fun _ => 7) (fun _ => 0.3)).1
        = fun _ => (7 : ℝ)) ∧
    (mlpack.detLayer.Forward (fun _ => 7) (fun _ => 0.3)).2.mask
      = mlpack.detLayer.mask :=
  ⟨rfl,
    (forward_deterministic_identity mlpack.detLayer
      (fun _ => 7) (fun _ => 0.3) rfl).1,
    (forward_deterministic_identity mlpack.detLayer
      (fun _ => 7) (fun _ => 0.3) rfl).2⟩

/-- C4: in training mode, for every upstream gradient `gy`, `Backward`
produces `g` with each element equal to `a * mask-entry * gy-entry`. -/
theorem backward_training_elementwise {ι : Type}
    (st : mlpack.AlphaDropout ι) (gy : ι → ℝ)
    (h : st.deterministic = false) :
    ∀ i, st.Backward gy i = st.a * st.mask i * gy i := by
  intro i
  simp [mlpack.AlphaDropout.Backward, h]

/-- A concrete training-mode layer with `a = 1.25` and the identity
mask `[[1,0],[0,1]]`, for the gradient-consistency check of C4. -/
def c4Layer : mlpack.AlphaDropout (Fin 2 × Fin 2) :=
  { delta := fun _ => 0
    inputParameter := fun _ => 0
    outputParameter := fun _ => 0
    mask := fun p => if p.1 = p.2 then 1 else 0
    ratio := 0.5
    alphaDash := 2
    deterministic := false
    a := 1.25
    b := 0 }

/-- The upstream gradient `[[2,3],[4,5]]` for the C4 check. -/
def c4Gy : Fin 2 × Fin 2 → ℝ := fun p =>
  if p.1 = 0 then (if p.2 = 0 then 2 else 3)
  else (if p.2 = 0 then 4 else 5)

/-- Witness for C4: with mask `[[1,0],[0,1]]` and `a = 1.25`, `Backward`
on `gy = [[2,3],[4,5]]` yields `g = [[2.5,0],[0,6.25]]`. -/
theorem backward_training_elementwise_witness :
    c4Layer.deterministic = false ∧
    c4Layer.Backward c4Gy (0, 0) = 2.5 ∧
    c4Layer.Backward c4Gy (0, 1) = 0 ∧
    c4Layer.Backward c4Gy (1, 0) = 0 ∧
    c4Layer.Backward c4Gy (1, 1) = 6.25 := by
  refine ⟨rfl, ?_, ?_, ?_, ?_⟩ <;>
  · rw [backward_training_elementwise c4Layer c4Gy rfl]
    norm_num [c4Layer, c4Gy]

/-- C5: setting `ratio = 0` (for any `alphaDash`) yields `a = 1` and
`b = 0`, and then `Forward(input) = input` exactly, in both
deterministic and non-deterministic mode (the uniform draws feeding the
Bernoulli trials lie in `[0, 1)`). -/
theorem zero_ratio_identity {ι : Type} (st : mlpack.AlphaDropout ι)
    (input u : ι → ℝ) (h : ∀ i, 0 ≤ u i) :
    (st.Ratio 0).a = 1 ∧ (st.Ratio 0).b = 0 ∧
    ∀ d : Bool,
      ((({ st.Ratio 0 with deterministic := d } :
          mlpack.AlphaDropout ι)).Forward input u).1 = input := by
  have hbase : (1 - (0 : ℝ)) * (1 + 0 * st.alphaDash ^ 2) = 1 := by ring
  have ha : (st.Ratio 0).a = 1 := by
    rw [mlpack.AlphaDropout.Ratio_a, hbase]
    exact Real.one_rpow _
  have hb : (st.Ratio 0).b = 0 := by
    rw [mlpack.AlphaDropout.Ratio_b]
    exact mul_zero _
  refine ⟨ha, hb, ?_⟩
  intro d
  cases d with
  | true =>
      exact (mlpack.AlphaDropout.Forward_det _ input u rfl).1
  | false =>
      rw [(mlpack.AlphaDropout.Forward_train _ input u rfl).1]
      funext i
      have hu : ({ st.Ratio 0 with deterministic := false } :
          mlpack.AlphaDropout ι).ratio ≤ u i := h i
      rw [if_pos hu]
      show (st.Ratio 0).a * input i + (st.Ratio 0).b = input i
      rw [ha, hb, one_mul, add_zero]

/-- Witness for C5 on a concrete layer, input and draw. -/
theorem zero_ratio_identity_witness :
    (∀ i : Unit, 0 ≤ (fun _ : Unit => (0.3 : ℝ)) i) ∧
    ((mlpack.defaultAlphaDropout Unit).Ratio 0).a = 1 ∧
    ((mlpack.defaultAlphaDropout Unit).Ratio 0).b = 0 ∧
    ∀ d : Bool,
      ((({ (mlpack.defaultAlphaDropout Unit).Ratio 0 with
            deterministic := d } :
          mlpack.AlphaDropout Unit)).Forward (fun _ => 9)
            (fun _ => 0.3)).1 = fun _ => (9 : ℝ) :=
  ⟨fun _ => by norm_num,
    zero_ratio_identity (mlpack.defaultAlphaDropout Unit)
      (fun _ => 9) (fun _ => 0.3) (fun _ => by norm_num)⟩

/-- C6: a layer constructed with default arguments has `ratio = 0.5` and
`alphaDash = -alpha * lambda ≈ -1.7580993408473766`. -/
theorem default_constants :
    (mlpack.defaultAlphaDropout Unit).ratio = 0.5 ∧
    (mlpack.defaultAlphaDropout Unit).alphaDash
      = -(mlpack.alpha * mlpack.lambda) ∧
    |(mlpack.defaultAlphaDropout Unit).alphaDash
        - (-1.7580993408473766)| < 1e-15 := by
  refine ⟨rfl, rfl, ?_⟩
  rw [show (mlpack.defaultAlphaDropout Unit).alphaDash
        = -(mlpack.alpha * mlpack.lambda) from rfl,
      mlpack.alpha, mlpack.lambda, abs_lt]
  constructor <;> norm_num

/-- C7: for every upstream gradient `gy`, `Backward` in deterministic
mode returns `g = gy`, the identity gradient. -/
theorem backward_deterministic_identity {ι : Type}
    (st : mlpack.AlphaDropout ι) (gy : ι → ℝ)
    (h : st.deterministic = true) :
    st.Backward gy = gy := by
  simp [mlpack.AlphaDropout.Backward, h]

/-- Witness for C7 on a concrete inference-mode layer. -/
theorem backward_deterministic_identity_witness :
    mlpack.detLayer.deterministic = true ∧
    mlpack.detLayer.Backward (fun _ => 4) = fun _ => (4 : ℝ) :=
  ⟨rfl, backward_deterministic_identity mlpack.detLayer (fun _ => 4) rfl⟩

/-- C8: serializing a configured layer (valid `ratio ∈ [0, 1)`) and
deserializing into a fresh instance reproduces identical `ratio`,
`alphaDash`, `a`, `b` and `deterministic`; the scratch buffers `mask`,
`inputParameter`, `outputParameter` and `delta` are not part of the
persisted state (the fresh instance holds empty, all-zero scratch
regardless of the scratch of the serialized layer). -/
theorem serialize_roundtrip {ι : Type} (st : mlpack.AlphaDropout ι)
    (h : 0 ≤ st.ratio ∧ st.ratio < 1) :
    (mlpack.deserialize ι st.serialize).ratio = st.ratio ∧
    (mlpack.deserialize ι st.serialize).alphaDash = st.alphaDash ∧
    (mlpack.deserialize ι st.serialize).a = st.a ∧
    (mlpack.deserialize ι st.serialize).b = st.b ∧
    (mlpack.deserialize ι st.serialize).deterministic
      = st.deterministic ∧
    (mlpack.deserialize ι st.serialize).mask = (fun _ => 0) ∧
    (mlpack.deserialize ι st.serialize).inputParameter = (fun _ => 0) ∧
    (mlpack.deserialize ι st.serialize).outputParameter = (fun _ => 0) ∧
    (mlpack.deserialize ι st.serialize).delta = (fun _ => 0) :=
  ⟨rfl, rfl, rfl, rfl, rfl, rfl, rfl, rfl, rfl⟩

/-- Witness for C8 on the default layer, whose ratio `0.5` is valid. -/
theorem serialize_roundtrip_witness :
    (0 ≤ (mlpack.defaultAlphaDropout Unit).ratio ∧
      (mlpack.defaultAlphaDropout Unit).ratio < 1) ∧
    (mlpack.deserialize Unit
        (mlpack.defaultAlphaDropout Unit).serialize).a
      = (mlpack.defaultAlphaDropout Unit).a :=
  ⟨⟨by norm_num [show (mlpack.defaultAlphaDropout Unit).ratio = 0.5
        from rfl],
    by norm_num [show (mlpack.defaultAlphaDropout Unit).ratio = 0.5
        from rfl]⟩,
    (serialize_roundtrip (mlpack.defaultAlphaDropout Unit)
      ⟨by norm_num [show (mlpack.defaultAlphaDropout Unit).ratio = 0.5
          from rfl],
        by norm_num [show (mlpack.defaultAlphaDropout Unit).ratio = 0.5
          from rfl]⟩).2.2.1⟩

end
